import Mathlib

/-!
Verification of the comparison engine of ddiff (src/py/ddiff.py) against its
specification.  The Python source is shallowly embedded: the filesystem is a
total map from paths to optional inodes, `stat` follows symlink chains with
bounded fuel (POSIX resolves at most a fixed number of links before ELOOP),
and Python exceptions are modelled with `Except`.  Functions keep the names
of the Python functions they embed (`file_type`, `diff_file`, `diff_dir`).
-/

deriving instance DecidableEq for Except

namespace Ddiff

/-- A filesystem path, as a list of components. -/
abbrev Path := List String

/-- File-type taxonomy, transcribed from the `FileType` enum (ddiff.py lines 43-61). -/
inductive FileType where
  | Normal | Missing | File | Setuid | Setgid | Executable | Directory
  | Sticky | StickyWrite | OtherWrite | Symlink | Orphan | BlockDevice
  | CharDevice | NamedPipe | Socket | Door | Unknown
deriving DecidableEq

/-- Diff status, transcribed from the `Status` enum (ddiff.py lines 63-68). -/
inductive Status where
  | Matching | Unknown | Different | LeftOnly | RightOnly
deriving DecidableEq

/-- Python exceptions that the embedded code can raise, plus fuel exhaustion
(modelling nontermination of unbounded recursion through symlink loops). -/
inductive PyErr where
  | fileNotFoundError | unboundLocalError | nameError | outOfFuel
deriving DecidableEq

/-- Metadata and payload of one filesystem object: the fields of a stat
result (`st_dev`, `st_ino`, `st_mode`, `st_size`, `st_mtime`) together with
the object's payload (file bytes, directory child names, symlink target). -/
structure Inode where
  dev : Nat
  ino : Nat
  mode : Nat
  size : Nat
  mtime : Nat
  contents : List Nat
  children : List String
  target : Path
deriving DecidableEq

/-- A filesystem: a total map from paths to the object found there, if any.
`lookup` is the lstat view: the final component of a symlink path yields the
link object itself, not its target. -/
structure FS where
  lookup : Path → Option Inode

/-- Mask of the file-type bits of `st_mode` (stat.S_IFMT). -/
def S_IFMT (m : Nat) : Nat := m &&& 0o170000

/-- stat.S_ISLNK. -/
def S_ISLNK (m : Nat) : Bool := S_IFMT m == 0o120000

/-- stat.S_ISDIR. -/
def S_ISDIR (m : Nat) : Bool := S_IFMT m == 0o040000

/-- stat.S_ISREG. -/
def S_ISREG (m : Nat) : Bool := S_IFMT m == 0o100000

/-- stat.S_ISBLK. -/
def S_ISBLK (m : Nat) : Bool := S_IFMT m == 0o060000

/-- stat.S_ISCHR. -/
def S_ISCHR (m : Nat) : Bool := S_IFMT m == 0o020000

/-- stat.S_ISFIFO. -/
def S_ISFIFO (m : Nat) : Bool := S_IFMT m == 0o010000

/-- stat.S_ISSOCK. -/
def S_ISSOCK (m : Nat) : Bool := S_IFMT m == 0o140000

/-- stat.S_ISDOOR: CPython on Linux defines this predicate as constantly
false (doors exist only on Solaris). -/
def S_ISDOOR (_ : Nat) : Bool := false

/-- Follow a symlink chain for at most `fuel` steps and return the stat
result of the final non-link object, as `Path.stat()` does (POSIX stat never
reports a link mode: it resolves the final symlink).  `none` models
`FileNotFoundError` (or `ELOOP` on exhaustion). -/
def resolveStat (fs : FS) : Nat → Path → Option Inode
  | 0, _ => none
  | fuel + 1, p =>
    match fs.lookup p with
    | none => none
    | some nd => if S_ISLNK nd.mode then resolveStat fs fuel nd.target else some nd

/-- `Path.stat()`: resolve symlinks (with the POSIX link-chain bound of 40)
and return the stat result, or `none` for `FileNotFoundError`. -/
def FS.stat (fs : FS) (p : Path) : Option Inode := resolveStat fs 40 p

/-- `Path.resolve()`: the path at the end of the symlink chain starting at
`p` (returns `p` itself when `p` is not a link or cannot be followed). -/
def resolvePathAux (fs : FS) : Nat → Path → Path
  | 0, p => p
  | fuel + 1, p =>
    match fs.lookup p with
    | none => p
    | some nd => if S_ISLNK nd.mode then resolvePathAux fs fuel nd.target else p

/-- `Path.resolve()` with the same link-chain bound as `FS.stat`. -/
def FS.resolvePath (fs : FS) (p : Path) : Path := resolvePathAux fs 40 p

/-- Classification of a successfully obtained `st_mode`, transcribed from the
body of `file_type` after the `try` block (ddiff.py lines 89-107). -/
def classifyMode (m : Nat) : FileType :=
  if S_ISLNK m then FileType.Symlink
  else if S_ISDIR m then
    if m &&& 0o1000 ≠ 0 ∧ m &&& 0o002 ≠ 0 then FileType.StickyWrite
    else if m &&& 0o002 ≠ 0 then FileType.OtherWrite
    else if m &&& 0o1000 ≠ 0 then FileType.Sticky
    else FileType.Directory
  else if S_ISDOOR m then FileType.Door
  else if S_ISBLK m then FileType.BlockDevice
  else if S_ISCHR m then FileType.CharDevice
  else if S_ISFIFO m then FileType.NamedPipe
  else if S_ISSOCK m then FileType.Socket
  else if !S_ISREG m then FileType.Unknown
  else if m &&& 0o4000 ≠ 0 then FileType.Setuid
  else if m &&& 0o2000 ≠ 0 then FileType.Setgid
  else if m &&& (0o100 ||| 0o010 ||| 0o001) ≠ 0 then FileType.Executable
  else FileType.File

/-- `file_type` (ddiff.py lines 84-107).  `path.stat()` follows symlinks; when
it raises `FileNotFoundError` the handler evaluates `stat.S_ISLNK(mode)` with
the local `mode` still unassigned, so the function raises
`UnboundLocalError` instead of returning Missing or Orphan. -/
def file_type (fs : FS) (p : Path) : Except PyErr FileType :=
  match fs.stat p with
  | none => Except.error PyErr.unboundLocalError
  | some nd => Except.ok (classifyMode nd.mode)

/-- A compiled regular expression, modelled by its positional match
semantics: `pat s i j` holds when the pattern matches the slice of `s`
between positions `i` and `j` (positions are needed because anchors and word
boundaries inspect the surrounding string). -/
abbrev Pat := List Char → Nat → Nat → Bool

/-- `re.Pattern.match`: the pattern matches some prefix starting at 0. -/
def reMatch (p : Pat) (s : List Char) : Bool :=
  (List.range (s.length + 1)).any fun j => p s 0 j

/-- `re.Pattern.search`: the pattern matches somewhere in the string. -/
def reSearch (p : Pat) (s : List Char) : Bool :=
  (List.range (s.length + 1)).any fun i =>
    (List.range (s.length + 1)).any fun j => decide (i ≤ j) && p s i j

/-- The child-listing filter of `diff_dir` (ddiff.py lines 454-455): keep
names for which `exclude.match(name)` is None. -/
def dirFilter (excl : Pat) (names : List String) : List String :=
  names.filter fun n => !reMatch excl n.data

/-- `filecmp.cmp(left, right)` with its default `shallow=True`: compare the
stat signatures (file-type bits, size, mtime); if the signatures agree the
files are declared equal without reading them, otherwise unequal sizes are
unequal files and equal sizes fall back to a full byte comparison. -/
def filecmpCmp (fs : FS) (f1 f2 : Path) : Except PyErr Bool :=
  match fs.stat f1, fs.stat f2 with
  | some s1, some s2 =>
    if S_IFMT s1.mode ≠ 0o100000 ∨ S_IFMT s2.mode ≠ 0o100000 then Except.ok false
    else if S_IFMT s1.mode = S_IFMT s2.mode ∧ s1.size = s2.size ∧ s1.mtime = s2.mtime then
      Except.ok true
    else if s1.size ≠ s2.size then Except.ok false
    else Except.ok (decide (s1.contents = s2.contents))
  | _, _ => Except.error PyErr.fileNotFoundError

/-- `list.sort()` on sibling `Path` objects: with a common parent, Python's
path order is the lexicographic (code-point) order of the child names. -/
def sortNames (names : List String) : List String :=
  List.insertionSort (fun a b : String => a ≤ b) names

/-- The second loop of `diff_dir` (ddiff.py lines 460-467): walk the paired
children, calling `d` (the recursive `diff_file`) on each pair; Matching
children are skipped, an Unknown child demotes the accumulated status, and
any other child status returns Different at once. -/
def diffLoop (d : Path → Path → Except PyErr Status) (left right : Path) :
    List (String × String) → Status → Except PyErr Status
  | [], status => Except.ok status
  | (a, b) :: rest, status =>
    match d (left ++ [a]) (right ++ [b]) with
    | Except.error e => Except.error e
    | Except.ok Status.Matching => diffLoop d left right rest status
    | Except.ok Status.Unknown => diffLoop d left right rest Status.Unknown
    | Except.ok _ => Except.ok Status.Different

/-- Body of `diff_dir` (ddiff.py lines 453-467), parametrised by the
recursive call `d` into `diff_file`: list both sides filtered by
`exclude.match`, return Different on unequal listing lengths, sort both
listings, return Different when any paired names differ, then roll up the
paired children with `diffLoop`. -/
def diff_dirAux (d : Path → Path → Except PyErr Status) (fs : FS)
    (left right : Path) (excl : Pat) : Except PyErr Status :=
  match fs.stat left, fs.stat right with
  | some lnode, some rnode =>
    let lefts := dirFilter excl lnode.children
    let rights := dirFilter excl rnode.children
    if lefts.length ≠ rights.length then Except.ok Status.Different
    else
      let lefts := sortNames lefts
      let rights := sortNames rights
      if (lefts.zip rights).any (fun p => p.1 != p.2) then Except.ok Status.Different
      else diffLoop d left right (lefts.zip rights) Status.Matching
  | _, _ => Except.error PyErr.fileNotFoundError

/-- `diff_file` (ddiff.py lines 469-486), with fuel bounding the recursion
depth.  Both stats follow symlinks, so the two `S_ISLNK` branches of the
source are preserved but unreachable; the final `if ltype != rtype` of the
source reads the undefined names `ltype`/`rtype` and raises `NameError`. -/
def diff_file : Nat → FS → Path → Path → Pat → Except PyErr Status
  | 0, _, _, _, _ => Except.error PyErr.outOfFuel
  | fuel + 1, fs, left, right, excl =>
    match fs.stat left with
    | none => Except.error PyErr.fileNotFoundError
    | some lstat =>
      match fs.stat right with
      | none => Except.error PyErr.fileNotFoundError
      | some rstat =>
        if lstat.dev = rstat.dev ∧ lstat.ino = rstat.ino then Except.ok Status.Matching
        else if S_ISLNK lstat.mode then
          diff_file fuel fs (fs.resolvePath left) right excl
        else if S_ISLNK rstat.mode then
          diff_file fuel fs left (fs.resolvePath right) excl
        else if S_ISDIR lstat.mode && S_ISDIR rstat.mode then
          diff_dirAux (fun a b => diff_file fuel fs a b excl) fs left right excl
        else if S_ISREG lstat.mode && S_ISREG rstat.mode then
          match filecmpCmp fs left right with
          | Except.error e => Except.error e
          | Except.ok true => Except.ok Status.Matching
          | Except.ok false => Except.ok Status.Different
        else Except.error PyErr.nameError

/-- `diff_dir` (ddiff.py lines 453-467): the directory comparison, recursing
into `diff_file` with the given fuel. -/
def diff_dir (fuel : Nat) (fs : FS) (left right : Path) (excl : Pat) :
    Except PyErr Status :=
  diff_dirAux (fun a b => diff_file fuel fs a b excl) fs left right excl

/-- One chunk of a natural-sort key: a maximal run of non-digit or of digit
characters. -/
inductive Chunk where
  | text (cs : List Char)
  | digits (cs : List Char)
deriving DecidableEq

/-- Prepend one character onto a chunk list, merging it into a leading run of
the same kind. -/
def pushChar (c : Char) (ks : List Chunk) : List Chunk :=
  if c.isDigit then
    match ks with
    | Chunk.digits ds :: rest => Chunk.digits (c :: ds) :: rest
    | _ => Chunk.digits [c] :: ks
  else
    match ks with
    | Chunk.text ts :: rest => Chunk.text (c :: ts) :: rest
    | _ => Chunk.text [c] :: ks

/-- Split a string into maximal digit and non-digit runs. -/
def natChunks (s : List Char) : List Chunk := s.foldr pushChar []

/-- Numeric value of a digit run. -/
def digitsVal (ds : List Char) : Nat :=
  ds.foldl (fun a c => a * 10 + (c.toNat - 48)) 0

/-- Code-point lexicographic comparison of character lists. -/
def charListCmp : List Char → List Char → Ordering
  | [], [] => Ordering.eq
  | [], _ :: _ => Ordering.lt
  | _ :: _, [] => Ordering.gt
  | a :: as, b :: bs =>
    match compare a b with
    | Ordering.eq => charListCmp as bs
    | o => o

/-- Compare two key chunks: digit runs compare by numeric magnitude, text
runs by code points, and a digit run sorts before a text run (natsort places
a number before text at the same position). -/
def chunkCmp : Chunk → Chunk → Ordering
  | Chunk.digits a, Chunk.digits b => compare (digitsVal a) (digitsVal b)
  | Chunk.digits _, Chunk.text _ => Ordering.lt
  | Chunk.text _, Chunk.digits _ => Ordering.gt
  | Chunk.text a, Chunk.text b => charListCmp a b

/-- Lexicographic comparison of chunk lists. -/
def keyCmp : List Chunk → List Chunk → Ordering
  | [], [] => Ordering.eq
  | [], _ :: _ => Ordering.lt
  | _ :: _, [] => Ordering.gt
  | a :: as, b :: bs =>
    match chunkCmp a b with
    | Ordering.eq => keyCmp as bs
    | o => o

/-- Natural-order comparison of names. -/
def natLe (a b : String) : Bool :=
  !(keyCmp (natChunks b.data) (natChunks a.data) == Ordering.lt)

/-- Modelled from the spec: `natsort.natsorted`, a third-party dependency not
in the repository.  Natural order per the spec's glossary: contiguous digit
runs compare as numeric magnitudes, other characters by code point. -/
def natsorted (l : List String) : List String :=
  List.insertionSort (fun a b => natLe a b = true) l

/-- Which side(s) of the listing a merged name came from. -/
inductive EntrySide where
  | Common | LeftOnly | RightOnly
deriving DecidableEq

/-- The side classification of one name in `DirDiffApp.watch_cwd` (ddiff.py
lines 366-372): present in both listings, only the left, or only the right. -/
def sideOf (lefts rights : List String) (n : String) : EntrySide :=
  if n ∈ lefts ∧ n ∈ rights then EntrySide.Common
  else if n ∈ lefts then EntrySide.LeftOnly
  else EntrySide.RightOnly

/-- The ordered entry sequence produced by `DirDiffApp.watch_cwd` (ddiff.py
lines 360-372): natural-sort the set union of both listings, skip names for
which `exclude.search(name)` matches, and tag each remaining name with the
side(s) it appears on. -/
def watchEntries (lefts rights : List String) (excl : Pat) :
    List (String × EntrySide) :=
  (natsorted ((lefts ++ rights).dedup)).filterMap fun n =>
    if reSearch excl n.data then none else some (n, sideOf lefts rights n)

/-- A word character for the regex word-boundary assertion. -/
def isWordChar (c : Char) : Bool := c.isAlphanum || c == '_'

/-- Whether position `i` of `s` holds a word character. -/
def wordAt (s : List Char) (i : Nat) : Bool :=
  match s.get? i with
  | some c => isWordChar c
  | none => false

/-- The regex word-boundary assertion at position `i`. -/
def boundaryAt (s : List Char) (i : Nat) : Bool :=
  (if i = 0 then false else wordAt s (i - 1)) != wordAt s i

/-- The regex end anchor at position `j`: end of string, or just before a
final newline. -/
def dollarAt (s : List Char) (j : Nat) : Bool :=
  j == s.length || (j + 1 == s.length && s.get? j == some '\n')

/-- Positional semantics of the compiled default exclude pattern: `main`
(ddiff.py lines 530-532) joins the default pattern list (argparse default,
line 75) into one alternation, yielding the pattern of a caret, a word
boundary and an end anchor, all zero-width. -/
def defaultExclude : Pat := fun s i j =>
  (i == 0) && (j == i) && boundaryAt s i && dollarAt s j

/-- A sample compiled pattern: a single literal letter b. -/
def patB : Pat := fun s i j => (j == i + 1) && (s.get? i == some 'b')

/-- Modelled from the spec: the directory rollup precedence (Different over
Unknown over Matching) that the child statuses of a directory pair aggregate
under. -/
def rollupSpec (sts : List Status) : Status :=
  if Status.Different ∈ sts then Status.Different
  else if Status.Unknown ∈ sts then Status.Unknown
  else Status.Matching

/-- A regular file inode. -/
def fileInode (dev ino mode mtime : Nat) (contents : List Nat) : Inode :=
  ⟨dev, ino, mode, contents.length, mtime, contents, [], []⟩

/-- A directory inode. -/
def dirInode (dev ino mode : Nat) (children : List String) : Inode :=
  ⟨dev, ino, mode, 0, 0, [], children, []⟩

/-- A symlink inode. -/
def linkInode (dev ino : Nat) (target : Path) : Inode :=
  ⟨dev, ino, 0o120777, 0, 0, [], [], target⟩

/-- Concrete filesystem for the shallow-comparison counterexample: two
regular files whose bytes differ in the second position but whose sizes and
mtimes agree. -/
def fsShallow : FS :=
  ⟨fun p =>
    if p = ["l"] then some (fileInode 1 1 0o100644 0 [97, 98])
    else if p = ["r"] then some (fileInode 1 2 0o100644 0 [97, 99])
    else none⟩

/-- Concrete filesystem for the amended content comparison: regular files
with bytes ab and ac and distinct mtimes. -/
def fsContent : FS :=
  ⟨fun p =>
    if p = ["l"] then some (fileInode 1 1 0o100644 1 [97, 98])
    else if p = ["r"] then some (fileInode 1 2 0o100644 2 [97, 99])
    else none⟩

/-- Concrete filesystem with a directory on the left and a regular file on
the right. -/
def fsTypeMismatch : FS :=
  ⟨fun p =>
    if p = ["d"] then some (dirInode 1 1 0o040755 [])
    else if p = ["f"] then some (fileInode 1 2 0o100644 0 [])
    else none⟩

/-- Concrete filesystem with a dangling symlink; the path missing maps to
nothing at all. -/
def fsMissing : FS :=
  ⟨fun p => if p = ["dangling"] then some (linkInode 1 1 ["gone"]) else none⟩

/-- Concrete filesystem with a symlink to an existing regular file. -/
def fsLink : FS :=
  ⟨fun p =>
    if p = ["link"] then some (linkInode 1 2 ["t"])
    else if p = ["t"] then some (fileInode 1 1 0o100644 0 [97])
    else none⟩

/-- Concrete filesystem for the symlink-transparency scenario: the left path
is a symlink to a regular file with bytes ab, the right path a regular file
with bytes ac and a different mtime. -/
def fsLinkDiff : FS :=
  ⟨fun p =>
    if p = ["a"] then some (linkInode 1 3 ["t"])
    else if p = ["t"] then some (fileInode 1 1 0o100644 1 [97, 98])
    else if p = ["b"] then some (fileInode 1 2 0o100644 2 [97, 99])
    else none⟩

/-- Concrete filesystem with two empty directories. -/
def fsEmptyDirs : FS :=
  ⟨fun p =>
    if p = ["dl"] then some (dirInode 1 10 0o040755 [])
    else if p = ["dr"] then some (dirInode 1 11 0o040755 [])
    else none⟩

/-- Concrete filesystem with a hardlink pair: two distinct paths whose stat
results share device and inode, with contents recorded only at one. -/
def fsHardlink : FS :=
  ⟨fun p =>
    if p = ["a"] then some (fileInode 1 5 0o100644 0 [1])
    else if p = ["b"] then some (fileInode 1 5 0o100644 3 [2])
    else none⟩

/-! ## Helper lemmas -/

theorem isreg_ifmt {m : Nat} (h : S_ISREG m = true) : S_IFMT m = 0o100000 := by
  simpa [S_ISREG] using h

theorem isreg_not_islnk {m : Nat} (h : S_ISREG m = true) : S_ISLNK m = false := by
  simp [S_ISLNK, isreg_ifmt h]

theorem isreg_not_isdir {m : Nat} (h : S_ISREG m = true) : S_ISDIR m = false := by
  simp [S_ISDIR, isreg_ifmt h]

theorem sortNames_perm (l : List String) : List.Perm (sortNames l) l :=
  List.perm_insertionSort _ l

theorem sortNames_sorted (l : List String) :
    List.Sorted (fun a b : String => a ≤ b) (sortNames l) :=
  List.sorted_insertionSort _ l

theorem sortNames_eq_of_perm {l1 l2 : List String} (h : List.Perm l1 l2) :
    sortNames l1 = sortNames l2 :=
  List.eq_of_perm_of_sorted ((sortNames_perm l1).trans (h.trans (sortNames_perm l2).symm))
    (sortNames_sorted l1) (sortNames_sorted l2)

theorem perm_of_sortNames_eq {l1 l2 : List String} (h : sortNames l1 = sortNames l2) :
    List.Perm l1 l2 := by
  have h1 := sortNames_perm l1
  rw [h] at h1
  exact h1.symm.trans (sortNames_perm l2)

theorem zip_any_ne_false_iff (xs : List String) : ∀ ys : List String,
    xs.length = ys.length →
    (((xs.zip ys).any fun p => p.1 != p.2) = false ↔ xs = ys) := by
  induction xs with
  | nil =>
    intro ys h
    cases ys with
    | nil => simp
    | cons y ys => simp at h
  | cons x xs ih =>
    intro ys h
    cases ys with
    | nil => simp at h
    | cons y ys =>
      simp only [List.zip_cons_cons, List.any_cons, Bool.or_eq_false_iff,
        bne_eq_false_iff_eq, List.cons.injEq]
      rw [ih ys (by simpa using h)]

theorem diffLoop_rollup (d : Path → Path → Except PyErr Status) (l r : Path)
    (st : String → Status) :
    ∀ (ns : List String) (acc : Status),
      (∀ n ∈ ns, d (l ++ [n]) (r ++ [n]) = Except.ok (st n)) →
      (∀ n ∈ ns, st n = Status.Matching ∨ st n = Status.Different ∨ st n = Status.Unknown) →
      acc = Status.Matching ∨ acc = Status.Unknown →
      diffLoop d l r (ns.zip ns) acc =
        Except.ok
          (if Status.Different ∈ ns.map st then Status.Different
           else if acc = Status.Unknown ∨ Status.Unknown ∈ ns.map st then Status.Unknown
           else acc) := by
  intro ns
  induction ns with
  | nil =>
    intro acc _ _ hacc
    rcases hacc with h | h <;> subst h <;> simp [diffLoop]
  | cons n ns ih =>
    intro acc hd hrange hacc
    have hdn := hd n (List.mem_cons_self n ns)
    have hrn := hrange n (List.mem_cons_self n ns)
    have hd' : ∀ m ∈ ns, d (l ++ [m]) (r ++ [m]) = Except.ok (st m) :=
      fun m hm => hd m (List.mem_cons_of_mem _ hm)
    have hrange' : ∀ m ∈ ns,
        st m = Status.Matching ∨ st m = Status.Different ∨ st m = Status.Unknown :=
      fun m hm => hrange m (List.mem_cons_of_mem _ hm)
    rw [List.zip_cons_cons]
    simp only [diffLoop]
    rw [hdn]
    rcases hrn with h | h | h <;> rw [h]
    · rw [ih acc hd' hrange' hacc]
      simp [h]
    · simp [h]
    · rw [ih Status.Unknown hd' hrange' (Or.inr rfl)]
      simp [h]

theorem filecmpCmp_regular (fs : FS) (l r : Path) (li ri : Inode)
    (hl : fs.stat l = some li) (hr : fs.stat r = some ri)
    (hregl : S_ISREG li.mode = true) (hregr : S_ISREG ri.mode = true)
    (hsl : li.size = li.contents.length) (hsr : ri.size = ri.contents.length) :
    filecmpCmp fs l r =
      Except.ok
        (decide (li.contents = ri.contents ∨ (li.size = ri.size ∧ li.mtime = ri.mtime))) := by
  have hfl := isreg_ifmt hregl
  have hfr := isreg_ifmt hregr
  simp only [filecmpCmp, hl, hr]
  rw [if_neg (by simp [hfl, hfr])]
  by_cases hsig : li.size = ri.size ∧ li.mtime = ri.mtime
  · rw [if_pos ⟨by rw [hfl, hfr], hsig.1, hsig.2⟩]
    simp [hsig]
  · rw [if_neg fun hcon => hsig ⟨hcon.2.1, hcon.2.2⟩]
    by_cases hsz : li.size = ri.size
    · rw [if_neg (not_ne_iff.mpr hsz)]
      by_cases hc : li.contents = ri.contents
      · simp [hc]
      · have hmt : ¬li.mtime = ri.mtime := fun hmt => hsig ⟨hsz, hmt⟩
        simp [hc, hmt]
    · rw [if_pos hsz]
      have hc : li.contents ≠ ri.contents := fun hc => hsz (by rw [hsl, hsr, hc])
      simp [hc, hsz]

theorem reMatch_defaultExclude_aux (s : List Char) (i j : Nat) :
    defaultExclude s i j = false := by
  unfold defaultExclude
  rcases Nat.eq_zero_or_pos i with hi | hi
  · subst hi
    rcases Nat.eq_zero_or_pos j with hj | hj
    · subst hj
      cases s with
      | nil => decide
      | cons c cs =>
        cases cs with
        | nil =>
          by_cases hc : c = '\n'
          · subst hc; decide
          · simp [boundaryAt, wordAt, dollarAt, hc]
        | cons c2 cs2 => simp [dollarAt]
    · simp [Nat.pos_iff_ne_zero.mp hj]
  · simp [Nat.pos_iff_ne_zero.mp hi]

theorem reMatch_defaultExclude (s : List Char) : reMatch defaultExclude s = false := by
  simp [reMatch, reMatch_defaultExclude_aux]

theorem reSearch_defaultExclude (s : List Char) : reSearch defaultExclude s = false := by
  simp [reSearch, reMatch_defaultExclude_aux]

theorem map_fst_filterMap_some (g : String → EntrySide) (u : List String) :
    (u.filterMap fun n => some (n, g n)).map Prod.fst = u := by
  induction u with
  | nil => rfl
  | cons a u ih => simp [List.filterMap_cons, ih]

/-! ## Claim theorems -/

/-- Claim C1, counterexample: with both sides regular files, `diff_file` does
not decide by byte equality alone.  Here the two files hold the bytes ab and
ac — different byte sequences — yet `diff_file` returns Matching, because
`filecmp.cmp` is called with its default shallow mode and the two stat
signatures (size, mtime) coincide. -/
theorem diff_file_shallow_counterexample :
    diff_file 1 fsShallow ["l"] ["r"] defaultExclude = Except.ok Status.Matching
    ∧ (fsShallow.stat ["l"]).map Inode.contents = some [97, 98]
    ∧ (fsShallow.stat ["r"]).map Inode.contents = some [97, 99] := by
  decide

/-- Claim C1, amended: for two regular files (identity shortcut not applying,
sizes consistent with contents), `diff_file` returns Matching exactly when
the shallow stat signatures (size and mtime) are equal or the byte sequences
are equal, and Different otherwise; the reported types of two plain regular
files are (File, File). -/
theorem diff_file_regular_files
    (fuel : Nat) (fs : FS) (l r : Path) (excl : Pat) (li ri : Inode)
    (hl : fs.stat l = some li) (hr : fs.stat r = some ri)
    (hid : ¬(li.dev = ri.dev ∧ li.ino = ri.ino))
    (hregl : S_ISREG li.mode = true) (hregr : S_ISREG ri.mode = true)
    (hsl : li.size = li.contents.length) (hsr : ri.size = ri.contents.length)
    (hcl : classifyMode li.mode = FileType.File)
    (hcr : classifyMode ri.mode = FileType.File) :
    diff_file (fuel + 1) fs l r excl =
      Except.ok
        (if li.contents = ri.contents ∨ (li.size = ri.size ∧ li.mtime = ri.mtime)
         then Status.Matching else Status.Different)
    ∧ file_type fs l = Except.ok FileType.File
    ∧ file_type fs r = Except.ok FileType.File := by
  refine ⟨?_, ?_, ?_⟩
  · simp only [diff_file, hl, hr]
    rw [if_neg hid]
    rw [filecmpCmp_regular fs l r li ri hl hr hregl hregr hsl hsr]
    simp only [isreg_not_islnk hregl, isreg_not_islnk hregr, isreg_not_isdir hregl,
      hregl, hregr, Bool.false_and, Bool.and_self, Bool.false_eq_true, if_false, if_true]
    by_cases hok : li.contents = ri.contents ∨ (li.size = ri.size ∧ li.mtime = ri.mtime)
    · simp [hok]
    · simp [hok]
  · simp [file_type, hl, hcl]
  · simp [file_type, hr, hcr]

/-- Claim C1, witness: on the concrete filesystem with byte contents ab and
ac and distinct mtimes the amended rule yields Different with both reported
types File. -/
theorem diff_file_regular_files_witness :
    diff_file 1 fsContent ["l"] ["r"] defaultExclude = Except.ok Status.Different
    ∧ file_type fsContent ["l"] = Except.ok FileType.File
    ∧ file_type fsContent ["r"] = Except.ok FileType.File := by
  have h := diff_file_regular_files 0 fsContent ["l"] ["r"] defaultExclude
    (fileInode 1 1 0o100644 1 [97, 98]) (fileInode 1 2 0o100644 2 [97, 99])
    (by decide) (by decide) (by decide) (by decide) (by decide)
    (by decide) (by decide) (by decide) (by decide)
  exact ⟨h.1.trans (by decide), h.2.1, h.2.2⟩

/-- Claim C2: the claim says a type mismatch yields Different; the code
instead falls through its `S_ISDIR`/`S_ISREG` branches to the line
`if ltype != rtype`, whose names `ltype` and `rtype` are never defined,
raising NameError.  Evaluated at a directory on the left and a regular file
on the right (independently classified Directory and File). -/
theorem diff_file_type_mismatch_nameerror :
    diff_file 1 fsTypeMismatch ["d"] ["f"] defaultExclude = Except.error PyErr.nameError
    ∧ file_type fsTypeMismatch ["d"] = Except.ok FileType.Directory
    ∧ file_type fsTypeMismatch ["f"] = Except.ok FileType.File := by
  decide

/-- Claim C3: the claim says `file_type` is total and returns Missing for a
nonexistent path and Orphan for a dangling symlink; the code instead raises
UnboundLocalError in both cases, because the FileNotFoundError handler reads
the local `mode` that the failed `stat()` call never assigned. -/
theorem file_type_raises_unboundlocal :
    file_type fsMissing ["missing"] = Except.error PyErr.unboundLocalError
    ∧ file_type fsMissing ["dangling"] = Except.error PyErr.unboundLocalError := by
  decide

/-- Claim C4: the claim says a symlink with a resolvable target classifies as
Symlink; the code calls `path.stat()`, which follows the link, so the
`S_ISLNK` test never fires and the target's own type (here File) is
returned instead. -/
theorem file_type_symlink_not_symlink :
    file_type fsLink ["link"] = Except.ok FileType.File
    ∧ file_type fsLink ["link"] ≠ Except.ok FileType.Symlink := by
  decide

/-- Claim C5: for a left-side symlink the status does equal the status of
diffing the resolved target against the right path (both are Different
here), but the reported left type is the resolved target's type File, not
Symlink as the claim requires, again because `stat()` follows the link
before `S_ISLNK` is consulted. -/
theorem diff_file_symlink_display_bug :
    diff_file 1 fsLinkDiff ["a"] ["b"] defaultExclude = Except.ok Status.Different
    ∧ diff_file 1 fsLinkDiff ["t"] ["b"] defaultExclude = Except.ok Status.Different
    ∧ file_type fsLinkDiff ["a"] = Except.ok FileType.File
    ∧ file_type fsLinkDiff ["a"] ≠ Except.ok FileType.Symlink := by
  decide

/-- Claim C6: for a pair of directories whose paired children all diff
cleanly, `diff_dir` returns Different exactly when the filtered child name
listings disagree as multisets (some one-sided child) or some paired child
is Different; otherwise Unknown when some child is Unknown; otherwise
Matching — the spec's rollup precedence. -/
theorem diff_dir_rollup
    (fuel : Nat) (fs : FS) (l r : Path) (excl : Pat) (lnode rnode : Inode)
    (hl : fs.stat l = some lnode) (hr : fs.stat r = some rnode)
    (st : String → Status)
    (hst : ∀ n ∈ dirFilter excl lnode.children,
      diff_file fuel fs (l ++ [n]) (r ++ [n]) excl = Except.ok (st n))
    (hrange : ∀ n ∈ dirFilter excl lnode.children,
      st n = Status.Matching ∨ st n = Status.Different ∨ st n = Status.Unknown) :
    diff_dir fuel fs l r excl =
      Except.ok
        (if List.Perm (dirFilter excl lnode.children) (dirFilter excl rnode.children)
         then rollupSpec ((dirFilter excl lnode.children).map st)
         else Status.Different) := by
  unfold diff_dir
  simp only [diff_dirAux, hl, hr]
  by_cases hperm : List.Perm (dirFilter excl lnode.children) (dirFilter excl rnode.children)
  · have hlen := hperm.length_eq
    have hsort := sortNames_eq_of_perm hperm
    rw [if_neg (not_ne_iff.mpr hlen), ← hsort]
    have hzip : (((sortNames (dirFilter excl lnode.children)).zip
        (sortNames (dirFilter excl lnode.children))).any fun p => p.1 != p.2) = false :=
      (zip_any_ne_false_iff _ _ rfl).mpr rfl
    rw [hzip]
    rw [if_neg (by simp)]
    rw [diffLoop_rollup _ l r st (sortNames (dirFilter excl lnode.children)) Status.Matching
      (fun n hn => hst n ((sortNames_perm (dirFilter excl lnode.children)).mem_iff.mp hn))
      (fun n hn => hrange n ((sortNames_perm (dirFilter excl lnode.children)).mem_iff.mp hn))
      (Or.inl rfl)]
    rw [if_pos hperm]
    have hpm := (sortNames_perm (dirFilter excl lnode.children)).map st
    simp [rollupSpec, hpm.mem_iff]
  · rw [if_neg hperm]
    by_cases hlen : (dirFilter excl lnode.children).length = (dirFilter excl rnode.children).length
    · rw [if_neg (not_ne_iff.mpr hlen)]
      have hslen : (sortNames (dirFilter excl lnode.children)).length =
          (sortNames (dirFilter excl rnode.children)).length := by
        rw [(sortNames_perm _).length_eq, (sortNames_perm _).length_eq]
        exact hlen
      have hsne : sortNames (dirFilter excl lnode.children) ≠
          sortNames (dirFilter excl rnode.children) :=
        fun he => hperm (perm_of_sortNames_eq he)
      have hzip : (((sortNames (dirFilter excl lnode.children)).zip
          (sortNames (dirFilter excl rnode.children))).any fun p => p.1 != p.2) = true := by
        by_contra hfalse
        rw [Bool.not_eq_true] at hfalse
        exact hsne ((zip_any_ne_false_iff _ _ hslen).mp hfalse)
      rw [hzip]
      simp
    · rw [if_pos hlen]

/-- Claim C6, witness: two empty directories compare as Matching. -/
theorem diff_dir_rollup_witness :
    diff_dir 1 fsEmptyDirs ["dl"] ["dr"] defaultExclude = Except.ok Status.Matching := by
  have h := diff_dir_rollup 1 fsEmptyDirs ["dl"] ["dr"] defaultExclude
    (dirInode 1 10 0o040755 []) (dirInode 1 11 0o040755 [])
    (by decide) (by decide) (fun _ => Status.Matching)
    (by intro n hn; simp [dirFilter, dirInode] at hn)
    (by intro n hn; simp [dirFilter, dirInode] at hn)
  refine h.trans ?_
  rw [if_pos (by decide)]
  decide

/-- Claim C7: when the two stat results agree on device and inode numbers,
`diff_file` returns Matching at once, for every filesystem, exclusion
pattern and fuel — in particular independent of either side's contents,
types or children. -/
theorem diff_file_identity_shortcut
    (fuel : Nat) (fs : FS) (l r : Path) (excl : Pat) (li ri : Inode)
    (hl : fs.stat l = some li) (hr : fs.stat r = some ri)
    (hdev : li.dev = ri.dev) (hino : li.ino = ri.ino) :
    diff_file (fuel + 1) fs l r excl = Except.ok Status.Matching := by
  simp only [diff_file, hl, hr]
  rw [if_pos ⟨hdev, hino⟩]

/-- Claim C7, witness: a hardlink pair with different recorded contents and
mtimes still compares as Matching. -/
theorem diff_file_identity_shortcut_witness :
    diff_file 1 fsHardlink ["a"] ["b"] defaultExclude = Except.ok Status.Matching :=
  diff_file_identity_shortcut 0 fsHardlink ["a"] ["b"] defaultExclude
    (fileInode 1 5 0o100644 0 [1]) (fileInode 1 5 0o100644 3 [2])
    (by decide) (by decide) (by decide) (by decide)

/-- Claim C8, counterexample: with left listing x, y, z and right listing
y, z, w the produced entry sequence is not x LeftOnly, y Common, z Common,
w RightOnly — the code sorts the union of the two listings, so w comes
first. -/
theorem watch_cwd_order_counterexample :
    watchEntries ["x", "y", "z"] ["y", "z", "w"] defaultExclude ≠
      [("x", EntrySide.LeftOnly), ("y", EntrySide.Common),
       ("z", EntrySide.Common), ("w", EntrySide.RightOnly)] := by
  decide

/-- Claim C8, amended: the output entries follow the natural order of the
union of the two listings: w RightOnly, then x LeftOnly, then y and z
Common. -/
theorem watch_cwd_order_amended :
    watchEntries ["x", "y", "z"] ["y", "z", "w"] defaultExclude =
      [("w", EntrySide.RightOnly), ("x", EntrySide.LeftOnly),
       ("y", EntrySide.Common), ("z", EntrySide.Common)] := by
  decide

/-- Claim C9, counterexample: the two exclusion sites disagree.  For the
pattern matching a literal b, the name ab has no match anchored at the
start (`re.match` fails, so the recursive directory diff keeps it), yet the
top-level listing drops it because `watch_cwd` uses `re.search`, which
matches anywhere. -/
theorem exclusion_sites_counterexample :
    reMatch patB "ab".data = false
    ∧ reSearch patB "ab".data = true
    ∧ dirFilter patB ["ab"] = ["ab"]
    ∧ watchEntries ["ab"] ["ab"] patB = [] := by
  decide

/-- Claim C9, amended: in the recursive directory diff a name is kept
exactly when no pattern matches anchored at the start (`re.match`), while
the top-level listing excludes a name when some pattern matches anywhere in
it (`re.search`); a name excluded at a site never appears in that site's
output. -/
theorem exclusion_sites_amended (excl : Pat) :
    (∀ (lefts rights : List String) (n : String) (side : EntrySide),
        (n, side) ∈ watchEntries lefts rights excl → reSearch excl n.data = false)
    ∧ (∀ (names : List String) (n : String),
        n ∈ dirFilter excl names ↔ n ∈ names ∧ reMatch excl n.data = false) := by
  constructor
  · intro lefts rights n side h
    unfold watchEntries at h
    rw [List.mem_filterMap] at h
    obtain ⟨a, _, ha⟩ := h
    by_cases hs : reSearch excl a.data = true
    · simp [hs] at ha
    · rw [Bool.not_eq_true] at hs
      rw [if_neg (by simp [hs])] at ha
      simp only [Option.some.injEq, Prod.mk.injEq] at ha
      rw [← ha.1]
      exact hs
  · intro names n
    unfold dirFilter
    rw [List.mem_filter]
    simp

/-- Claim C9, witness: applying the amended rule at the pattern for a
literal b: the name x appears in the top-level output, hence `re.search`
does not match it. -/
theorem exclusion_sites_amended_witness : reSearch patB "x".data = false :=
  (exclusion_sites_amended patB).1 ["x"] ["x"] "x" EntrySide.Common (by decide)

/-- Claim C10: the compiled default exclusion pattern — a caret, a word
boundary and an end anchor — matches no name at any position, so with no
user-supplied patterns `re.match` and `re.search` both always fail: the
directory-diff filter keeps every name and the top-level listing emits every
name of the merged union. -/
theorem default_exclude_excludes_nothing (s : String) (names lefts rights : List String) :
    reMatch defaultExclude s.data = false
    ∧ reSearch defaultExclude s.data = false
    ∧ dirFilter defaultExclude names = names
    ∧ (watchEntries lefts rights defaultExclude).map Prod.fst =
        natsorted ((lefts ++ rights).dedup) := by
  refine ⟨reMatch_defaultExclude _, reSearch_defaultExclude _, ?_, ?_⟩
  · unfold dirFilter
    rw [List.filter_eq_self]
    intro a _
    simp [reMatch_defaultExclude]
  · unfold watchEntries
    simp only [reSearch_defaultExclude, Bool.false_eq_true, if_false]
    exact map_fst_filterMap_some _ _

end Ddiff
